import Mathlib

/-!
Verification of the wallet-based authentication and identity-linking
subsystem (Express server, `src/unnamed/part_016`, with `src/server/index.js`
as an earlier variant).  The server's mutable `Map`s (`pendingNonces`,
`walletDirectory`, `userDirectory`, `activeTokens`) and the two Firestore
collections (`userCredentials`, `passwordResetOtps`) are embedded as
association lists inside an explicit `ServerState`; each HTTP handler becomes
a pure function from a state and a request to a response and a new state.

External effects that cannot be embedded are passed in as oracle parameters:
`viem.verifyMessage` as a `String → String → String → Bool` oracle,
`jwt.verify` (signature plus `exp`-claim check) as `String → Option
SessionPayload`, `argon2.hash` / `argon2.verify` as `String → String` and
`String → String → Bool`, the randomly generated nonce / OTP code / signed
JWT string as parameters, `Date.now()` as a `Nat` parameter, and the Google
token-introspection round trip as `String → Except String GoogleProfile`.
The handlers are modelled post-parse: the zod schema stage (which returns a
400 `Invalid input payload` on malformed bodies) is upstream of the embedded
functions, so the string arguments are exactly the parsed request fields.
-/

/-! ### Association-list maps (the JS `Map` / Firestore collections) -/

/-- Lookup in an association list by key (JS `Map.get` / Firestore doc get). -/
def lookupKey {β : Type} (m : List (String × β)) (k : String) : Option β :=
  match m with
  | [] => none
  | (k', v) :: rest => if k' = k then some v else lookupKey rest k

/-- Remove a key from an association list (JS `Map.delete` / doc delete). -/
def eraseKey {β : Type} (m : List (String × β)) (k : String) : List (String × β) :=
  match m with
  | [] => []
  | (k', v) :: rest => if k' = k then eraseKey rest k else (k', v) :: eraseKey rest k

/-- Insert or replace a key's value (JS `Map.set` / Firestore doc set). -/
def setKey {β : Type} (m : List (String × β)) (k : String) (v : β) : List (String × β) :=
  match m with
  | [] => [(k, v)]
  | (k', v') :: rest => if k' = k then (k, v) :: rest else (k', v') :: setKey rest k v

/-! ### String primitives, embedded structurally so the kernel can evaluate
them (the built-in `String.trim` / `String.toLower` / `String.startsWith` use
well-founded recursion and do not reduce under `decide`).  The request fields
here are ASCII, for which these agree with the JS string methods. -/

/-- JS `String.prototype.toLowerCase` on ASCII input: lowercase every
character. -/
def lowerString (s : String) : String := String.mk (s.toList.map Char.toLower)

/-- JS `String.prototype.trim`: strip leading and trailing whitespace. -/
def trimString (s : String) : String :=
  String.mk (((s.toList.dropWhile Char.isWhitespace).reverse.dropWhile
    Char.isWhitespace).reverse)

/-- First `n` UTF-16 units of a string (ASCII here), as in JS slicing. -/
def strTake (s : String) (n : Nat) : String := String.mk (s.toList.take n)

/-- JS `String.prototype.slice(n)`: drop the first `n` characters. -/
def strDrop (s : String) (n : Nat) : String := String.mk (s.toList.drop n)

/-- JS `address.startsWith('0x')`. -/
def startsWith0x (a : String) : Bool := strTake a 2 == "0x"

/-- JS `authHeader.startsWith('Bearer ')`. -/
def startsWithBearer (h : String) : Bool := strTake h 7 == "Bearer "

/-! ### Normalization helpers (`part_016` lines 189-197) -/

/-- JS truthiness test for an optional string request field: `undefined`,
`null` and the empty string are falsy. -/
def optStrFalsy : Option String → Bool
  | none => true
  | some s => s == ""

/-- Embeds `normalizeEmail = email => email.trim().toLowerCase()`. -/
def normalizeEmail (email : String) : String := lowerString (trimString email)

/-- Embeds `normalizePhone = phone => phone.replaceAll(/\D/g, '')`:
keep only the decimal digits. -/
def normalizePhone (phone : String) : String :=
  String.mk (phone.toList.filter fun c => c.isDigit)

/-- Embeds `normalizeAddress` (`part_016` lines 192-197): a non-string value
(modelled as `none`) or a string not starting with `0x` throws
`Invalid wallet address`; otherwise the address is lowercased. -/
def normalizeAddress : Option String → Except String String
  | none => .error "Invalid wallet address"
  | some a =>
      if startsWith0x a then .ok (lowerString a) else .error "Invalid wallet address"

/-! ### Data model (`part_016` lines 118-121, 199-244, and the two Firestore
collections `userCredentials` / `passwordResetOtps`) -/

/-- Server-wide constants (`part_016` lines 16, 22-23, with the environment
unset, i.e. the documented defaults). -/
def TOKEN_TTL_SECONDS : Nat := 3600

/-- Default `PWD_RESET_OTP_TTL_MS`: ten minutes. -/
def OTP_TTL_MS : Nat := 10 * 60 * 1000

/-- Default `PWD_RESET_MAX_ATTEMPTS`. -/
def OTP_MAX_ATTEMPTS : Nat := 5

/-- Entry of `pendingNonces` (`createNonceRecord`, lines 199-205). -/
structure NonceRecord where
  nonce : String
  message : String
  expiresAt : Nat
deriving DecidableEq

/-- Entry of `walletDirectory` (`buildWalletRecord`, lines 227-235). -/
structure WalletRecord where
  address : String
  createdAt : Nat
  lastLoginAt : Option Nat
  googleId : Option String
deriving DecidableEq

/-- JWT claims / session payload: the union of the payload shapes passed to
`issueJwt` (`{address, linkedGoogleId}` from wallet login and linking,
`{authType, email, phone}` from email login), absent fields as `none`. -/
structure SessionPayload where
  authType : Option String
  address : Option String
  linkedGoogleId : Option String
  email : Option String
  phone : Option String
deriving DecidableEq

/-- Entry of `activeTokens` (`issueJwt`, lines 237-244).  Every writer stores
a `payload`, so the defensive `active.payload ?? decoded` fallback of
`authenticateRequest` always takes the stored payload. -/
structure TokenRecord where
  payload : SessionPayload
  expiresAt : Nat
deriving DecidableEq

/-- Entry of `userDirectory` (lines 700-714).  The JS `Set` of wallets is a
list without duplicates, in insertion order, as `Array.from` exposes it. -/
structure UserRecord where
  googleId : String
  wallets : List String
  email : Option String
  displayName : Option String
  createdAt : Nat
  lastLinkedAt : Option Nat
deriving DecidableEq

/-- Document of the `userCredentials` Firestore collection, keyed by
normalized email (registration, lines 351-358).  `passwordHash` is optional
so that externally created documents missing the field (the case guarded at
lines 396-399) are representable.  The `serverTimestamp` sentinels are
modelled by the request time. -/
structure Credential where
  email : String
  passwordHash : Option String
  phone : Option String
  createdAt : Nat
  updatedAt : Nat
  lastLoginAt : Option Nat
deriving DecidableEq

/-- Document of the `passwordResetOtps` collection (lines 467-474). -/
structure OtpData where
  phone : String
  email : Option String
  otpHash : String
  attempts : Nat
  expiresAt : Nat
  createdAt : Nat
deriving DecidableEq

/-- The server's mutable state: the four in-memory `Map`s of `part_016`
lines 118-121 plus the two Firestore collections.  `firestoreConfigured`
models whether Firebase Admin credentials were supplied (lines 127-153);
`ensureCredentialStoreAvailable` fails with 503 when they were not. -/
structure ServerState where
  pendingNonces : List (String × NonceRecord)
  walletDirectory : List (String × WalletRecord)
  userDirectory : List (String × UserRecord)
  activeTokens : List (String × TokenRecord)
  users : List (String × Credential)
  otps : List (String × OtpData)
  firestoreConfigured : Bool
deriving DecidableEq

/-- Generic HTTP outcome: `err status message` for `res.status(s).json({error})`
responses, `ok payload` for the endpoint's success JSON. -/
inductive ApiResp (α : Type) where
  | err (status : Nat) (message : String)
  | ok (payload : α)
deriving DecidableEq

/-- The 503 message of `ensureCredentialStoreAvailable` (lines 214-223). -/
def storeUnavailableMsg : String :=
  "User credential storage is not configured. Provide Firebase Admin credentials on the server to enable this feature."

/-! ### Challenge store and session manager primitives -/

/-- Embeds `createNonceRecord` (lines 199-205): store
`{nonce, message, expiresAt = now + 5m}` under the address, overwriting any
prior challenge, and return `{nonce, message}`.  The random nonce hex string
is the `freshNonce` parameter. -/
def createNonceRecord (st : ServerState) (address freshNonce : String) (now : Nat) :
    NonceRecord × ServerState :=
  let message := "Sign in to Fractal Recipe\nNonce: " ++ freshNonce
  let record : NonceRecord := ⟨freshNonce, message, now + 5 * 60 * 1000⟩
  (record, { st with pendingNonces := setKey st.pendingNonces address record })

/-- Embeds `buildWalletRecord` (lines 227-235): return the existing record
for the address, or create and store a fresh one. -/
def buildWalletRecord (st : ServerState) (address : String) (now : Nat) :
    WalletRecord × ServerState :=
  match lookupKey st.walletDirectory address with
  | some existing => (existing, st)
  | none =>
      let record : WalletRecord := ⟨address, now, none, none⟩
      (record, { st with walletDirectory := setKey st.walletDirectory address record })

/-- Embeds `issueJwt` (lines 237-244): `jwt.sign` is external, so the signed
token string arrives as `freshToken`; the registry entry
`{payload, expiresAt = now + ttl*1000}` is stored under the token itself. -/
def issueJwt (st : ServerState) (payload : SessionPayload) (freshToken : String)
    (now : Nat) : ServerState :=
  { st with activeTokens :=
      setKey st.activeTokens freshToken ⟨payload, now + TOKEN_TTL_SECONDS * 1000⟩ }

/-! ### `POST /auth/nonce` (lines 589-602) -/

/-- Success payload of `/auth/nonce`. -/
structure NonceOk where
  nonce : String
  message : String
deriving DecidableEq

/-- Embeds the `/auth/nonce` handler: falsy address gives 400, an invalid
address throws inside `normalizeAddress` and is caught as 400 with the
thrown message, otherwise a challenge is created for the normalized
address. -/
def authNonce (st : ServerState) (address : Option String) (freshNonce : String)
    (now : Nat) : ApiResp NonceOk × ServerState :=
  if optStrFalsy address then
    (.err 400 "Wallet address required", st)
  else
    match normalizeAddress address with
    | .error msg => (.err 400 msg, st)
    | .ok normalized =>
        let r := createNonceRecord st normalized freshNonce now
        (.ok ⟨r.1.nonce, r.1.message⟩, r.2)

/-! ### `POST /auth/verify` (lines 604-661) -/

/-- Success payload of `/auth/verify`.  `firebaseCustomToken` is whatever the
optional Firebase Admin side channel produced (`null` when unconfigured or on
its internal failure); it does not touch the server state. -/
structure VerifyOk where
  token : String
  address : String
  linkedGoogleId : Option String
  firebaseCustomToken : Option String
deriving DecidableEq

/-- Embeds the `/auth/verify` handler.  `verifSig` is the
`viem.verifyMessage` oracle (address, message, signature ↦ valid);
`freshToken` the `jwt.sign` output; `fbToken` the Firebase custom-token side
channel.  Field checks, nonce lookup, expiry, signature check, nonce
consumption, wallet-record update and JWT issuance follow the source order;
a `normalizeAddress` throw is caught by the outer catch as a 500. -/
def authVerify (verifSig : String → String → String → Bool)
    (fbToken : Option String) (st : ServerState)
    (address signature : Option String) (now : Nat) (freshToken : String) :
    ApiResp VerifyOk × ServerState :=
  if optStrFalsy address || optStrFalsy signature then
    (.err 400 "Wallet address and signature are required", st)
  else
    match normalizeAddress address with
    | .error msg => (.err 500 msg, st)
    | .ok normalized =>
        match lookupKey st.pendingNonces normalized with
        | none => (.err 400 "Nonce not found. Request a new one.", st)
        | some nonceRecord =>
            if nonceRecord.expiresAt < now then
              (.err 400 "Nonce expired. Request a new one.",
                { st with pendingNonces := eraseKey st.pendingNonces normalized })
            else if !(verifSig normalized nonceRecord.message ((signature).getD "")) then
              (.err 401 "Signature verification failed", st)
            else
              let st1 := { st with pendingNonces := eraseKey st.pendingNonces normalized }
              let bw := buildWalletRecord st1 normalized now
              let walletRecord := { bw.1 with lastLoginAt := some now }
              let st3 := { bw.2 with
                walletDirectory := setKey bw.2.walletDirectory normalized walletRecord }
              let payload : SessionPayload :=
                { authType := none, address := some normalized,
                  linkedGoogleId := walletRecord.googleId, email := none, phone := none }
              let st4 := issueJwt st3 payload freshToken now
              (.ok ⟨freshToken, normalized, walletRecord.googleId, fbToken⟩, st4)

/-! ### `authenticateRequest` middleware (lines 276-308) -/

/-- Outcome of the middleware: a 401 response, or `req.auth` (the decoded
JWT claims) together with `req.session` (the registry payload). -/
inductive AuthOutcome where
  | failed (status : Nat) (message : String)
  | passed (auth session : SessionPayload)
deriving DecidableEq

/-- Embeds `authenticateRequest`.  `jwtVerify` is the `jwt.verify` oracle
(signature and `exp`-claim check bundled): `none` models a throw.  A token
that decodes but is absent from `activeTokens`, or whose registry entry is
past `expiresAt`, is rejected as `Session has expired` and its registry
entry deleted. -/
def authenticateRequest (jwtVerify : String → Option SessionPayload)
    (st : ServerState) (authHeader : Option String) (now : Nat) :
    AuthOutcome × ServerState :=
  match authHeader with
  | none => (.failed 401 "Authorization token missing", st)
  | some h =>
      if !(startsWithBearer h) then
        (.failed 401 "Authorization token missing", st)
      else
        match jwtVerify (strDrop h 7) with
        | none => (.failed 401 "Invalid or expired token", st)
        | some decoded =>
            match lookupKey st.activeTokens (strDrop h 7) with
            | none =>
                (.failed 401 "Session has expired",
                  { st with activeTokens := eraseKey st.activeTokens (strDrop h 7) })
            | some active =>
                if active.expiresAt < now then
                  (.failed 401 "Session has expired",
                    { st with activeTokens := eraseKey st.activeTokens (strDrop h 7) })
                else
                  (.passed decoded active.payload, st)

/-! ### `POST /auth/logout` (lines 782-796) -/

/-- Embeds the `/auth/logout` route: the middleware runs first; the handler
re-extracts the bearer token and unconditionally deletes its registry
entry.  The success body `{success:true}` is modelled as `ok true`. -/
def authLogout (jwtVerify : String → Option SessionPayload)
    (st : ServerState) (authHeader : Option String) (now : Nat) :
    ApiResp Bool × ServerState :=
  match authenticateRequest jwtVerify st authHeader now with
  | (.failed status msg, st') => (.err status msg, st')
  | (.passed _ _, st') =>
      match authHeader with
      | none => (.err 401 "Authorization token missing", st')
      | some h =>
          if !(startsWithBearer h) then (.err 401 "Authorization token missing", st')
          else
            (.ok true,
              { st' with activeTokens := eraseKey st'.activeTokens (strDrop h 7) })

/-! ### `POST /auth/link` (lines 665-749) -/

/-- The Google profile fields read by the handler (`sub`, `email`, `name`). -/
structure GoogleProfile where
  sub : Option String
  email : Option String
  name : Option String
deriving DecidableEq

/-- Lines 673-681: when a truthy `googleAccessToken` is supplied, the
external `verifyGoogleAccessToken` call (oracle `verifyGoogle`, `.error`
modelling a throw) must succeed, else the route answers 401; without a
token no profile is fetched. -/
def resolveGoogleProfile (verifyGoogle : String → Except String GoogleProfile)
    (googleAccessToken : Option String) : Except String (Option GoogleProfile) :=
  match googleAccessToken with
  | none => .ok none
  | some gat =>
      if gat == "" then .ok none
      else ((verifyGoogle gat).map some)

/-- Line 683: `verifiedProfile?.sub ?? googleId` — the verified subject
always wins over the client-supplied id. -/
def resolvedIdOf (verifiedProfile : Option GoogleProfile)
    (googleId : Option String) : Option String :=
  match verifiedProfile with
  | some p => (p.sub).orElse fun _ => googleId
  | none => googleId

/-- Success payload of `/auth/link`. -/
structure LinkOk where
  address : String
  linkedGoogleId : String
  wallets : List String
  email : Option String
  displayName : Option String
  token : String
  firebaseCustomToken : Option String
deriving DecidableEq

/-- JS `Set.prototype.add` on the insertion-ordered wallet list. -/
def walletsAdd (xs : List String) (x : String) : List String :=
  if xs.contains x then xs else xs ++ [x]

/-- Embeds the `/auth/link` handler body (after the middleware), lines
670-747.  `auth` is `req.auth`; a `normalizeAddress` throw is caught by the
outer catch as a 500 with the thrown message. -/
def linkBody (verifyGoogle : String → Except String GoogleProfile)
    (fbToken : Option String) (st : ServerState) (auth : SessionPayload)
    (googleId email displayName googleAccessToken : Option String)
    (now : Nat) (freshToken : String) : ApiResp LinkOk × ServerState :=
  match resolveGoogleProfile verifyGoogle googleAccessToken with
  | .error msg => (.err 401 msg, st)
  | .ok verifiedProfile =>
      let resolvedGoogleId := resolvedIdOf verifiedProfile googleId
      if optStrFalsy resolvedGoogleId then
        (.err 400 "Google ID is required to link accounts", st)
      else
        let gid := resolvedGoogleId.getD ""
        match normalizeAddress auth.address with
        | .error msg => (.err 500 msg, st)
        | .ok normalizedAddress =>
            let bw := buildWalletRecord st normalizedAddress now
            let walletRecord := bw.1
            let st1 := bw.2
            if !(optStrFalsy walletRecord.googleId)
                && walletRecord.googleId != some gid then
              (.err 409 "Wallet already linked to a different Google account", st1)
            else
              let resolvedEmail :=
                ((verifiedProfile.bind fun p => p.email).orElse fun _ => email)
              let resolvedDisplayName :=
                ((verifiedProfile.bind fun p => p.name).orElse fun _ => displayName)
              let userRecord : UserRecord :=
                match lookupKey st1.userDirectory gid with
                | some existing =>
                    { existing with
                      email := (existing.email).orElse fun _ => resolvedEmail,
                      displayName :=
                        (existing.displayName).orElse fun _ => resolvedDisplayName }
                | none =>
                    { googleId := gid, wallets := [], email := resolvedEmail,
                      displayName := resolvedDisplayName, createdAt := now,
                      lastLinkedAt := none }
              let userRecord := { userRecord with
                wallets := walletsAdd userRecord.wallets normalizedAddress,
                lastLinkedAt := some now }
              let st2 := { st1 with
                userDirectory := setKey st1.userDirectory gid userRecord }
              let walletRecord := { walletRecord with googleId := some gid }
              let st3 := { st2 with
                walletDirectory := setKey st2.walletDirectory normalizedAddress walletRecord }
              let payload : SessionPayload :=
                { authType := none, address := some normalizedAddress,
                  linkedGoogleId := some gid, email := none, phone := none }
              let st4 := issueJwt st3 payload freshToken now
              (.ok ⟨normalizedAddress, gid, userRecord.wallets, userRecord.email,
                userRecord.displayName, freshToken, fbToken⟩, st4)

/-- The complete `/auth/link` route: `authenticateRequest` then the body. -/
def authLink (jwtVerify : String → Option SessionPayload)
    (verifyGoogle : String → Except String GoogleProfile)
    (fbToken : Option String) (st : ServerState) (authHeader : Option String)
    (googleId email displayName googleAccessToken : Option String)
    (now : Nat) (freshToken : String) : ApiResp LinkOk × ServerState :=
  match authenticateRequest jwtVerify st authHeader now with
  | (.failed status msg, st') => (.err status msg, st')
  | (.passed decoded _, st') =>
      linkBody verifyGoogle fbToken st' decoded googleId email displayName
        googleAccessToken now freshToken

/-! ### `POST /auth/register/email` (lines 310-370) -/

/-- Success payload of registration (201 `ACCOUNT_CREATED`). -/
structure RegisterOk where
  message : String
  email : String
  phone : String
deriving DecidableEq

/-- Embeds the `/auth/register/email` handler (post-parse: the zod schema
already accepted `email`/`password`/`phone`).  `hashPassword` is the
`argon2.hash` oracle.  Order as in the source: store-availability guard,
normalization, digit-count bound, email-uniqueness check, phone-uniqueness
query, hash and persist. -/
def registerEmail (hashPassword : String → String) (st : ServerState)
    (email password phone : String) (now : Nat) : ApiResp RegisterOk × ServerState :=
  if !st.firestoreConfigured then (.err 503 storeUnavailableMsg, st)
  else
    if (normalizePhone phone).length < 8 || 15 < (normalizePhone phone).length then
      (.err 400 "Phone number must contain between 8 and 15 digits.", st)
    else
      match lookupKey st.users (normalizeEmail email) with
      | some _ => (.err 409 "Email is already registered.", st)
      | none =>
          if st.users.any (fun kv => kv.2.phone == some (normalizePhone phone)) then
            (.err 409 "Phone number is already associated with another account.", st)
          else
            let cred : Credential :=
              { email := normalizeEmail email,
                passwordHash := some (hashPassword password),
                phone := some (normalizePhone phone), createdAt := now,
                updatedAt := now, lastLoginAt := none }
            (.ok ⟨"ACCOUNT_CREATED", normalizeEmail email, normalizePhone phone⟩,
              { st with users := setKey st.users (normalizeEmail email) cred })

/-! ### `POST /auth/login/email` (lines 372-428) -/

/-- Success payload of email login. -/
structure LoginOk where
  token : String
  email : String
  phone : Option String
deriving DecidableEq

/-- Embeds the `/auth/login/email` handler (post-parse).  `argonVerify` is
the `argon2.verify` oracle (stored hash, supplied password ↦ match).  A
falsy `passwordHash` on the stored document gives the distinct 500; a
lookup miss and a hash mismatch give the same generic 401. -/
def loginEmail (argonVerify : String → String → Bool) (st : ServerState)
    (email password : String) (now : Nat) (freshToken : String) :
    ApiResp LoginOk × ServerState :=
  if !st.firestoreConfigured then (.err 503 storeUnavailableMsg, st)
  else
    match lookupKey st.users (normalizeEmail email) with
    | none => (.err 401 "Invalid email or password.", st)
    | some userData =>
        if optStrFalsy userData.passwordHash then
          (.err 500 "Account is missing credentials. Contact support.", st)
        else if !(argonVerify (userData.passwordHash.getD "") password) then
          (.err 401 "Invalid email or password.", st)
        else
          let userData := { userData with lastLoginAt := some now, updatedAt := now }
          let st1 := { st with users := setKey st.users (normalizeEmail email) userData }
          let payload : SessionPayload :=
            { authType := some "email-password", address := none,
              linkedGoogleId := none, email := some (normalizeEmail email),
              phone := userData.phone }
          let st2 := issueJwt st1 payload freshToken now
          (.ok ⟨freshToken, normalizeEmail email, userData.phone⟩, st2)

/-! ### `POST /auth/password/request-otp` (lines 430-491) -/

/-- Embeds the `/auth/password/request-otp` handler (post-parse).  `hashOtp`
is the `argon2.hash` oracle and `otpCode` the freshly generated 6-digit
code; the success body (and its development-only echo of the code) carries
no state, so it is modelled as `ok ()`. -/
def requestOtp (hashOtp : String → String) (st : ServerState) (phone : String)
    (otpCode : String) (now : Nat) : ApiResp Unit × ServerState :=
  if !st.firestoreConfigured then (.err 503 storeUnavailableMsg, st)
  else
    if (normalizePhone phone).length < 8 || 15 < (normalizePhone phone).length then
      (.err 400 "Phone number must contain between 8 and 15 digits.", st)
    else
      match st.users.find? (fun kv => kv.2.phone == some (normalizePhone phone)) with
      | none => (.err 404 "No account found for the provided phone number.", st)
      | some (docId, _) =>
          let data : OtpData :=
            { phone := normalizePhone phone, email := some docId,
              otpHash := hashOtp otpCode, attempts := 0,
              expiresAt := now + OTP_TTL_MS, createdAt := now }
          (.ok (), { st with otps := setKey st.otps (normalizePhone phone) data })

/-- The `otpDocRef.update({attempts: attempts + 1})` write (line 545). -/
def bumpOtpAttempts (d : OtpData) : OtpData := { d with attempts := d.attempts + 1 }

/-- State with the OTP document under `np` overwritten by `d`. -/
def setOtpEntry (st : ServerState) (np : String) (d : OtpData) : ServerState :=
  { st with otps := setKey st.otps np d }

/-- State with the OTP document under `np` deleted. -/
def eraseOtpEntry (st : ServerState) (np : String) : ServerState :=
  { st with otps := eraseKey st.otps np }

/-! ### `POST /auth/password/reset` (lines 493-583) -/

/-- Success payload of the reset endpoint. -/
structure ResetOk where
  message : String
  email : String
deriving DecidableEq

/-- Embeds the `/auth/password/reset` handler (post-parse).  Check order as
in the source: store guard, digit-count bound, challenge lookup (the
`otpDoc.data()` undefined guard cannot arise with documents modelled as
data), attempts limit, expiry, code verification (incrementing `attempts` on
mismatch), linked-email guard, account lookup, then update the credential
and delete the challenge. -/
def resetPassword (argonVerify : String → String → Bool)
    (hashPassword : String → String) (st : ServerState)
    (phone otp newPassword : String) (now : Nat) : ApiResp ResetOk × ServerState :=
  if !st.firestoreConfigured then (.err 503 storeUnavailableMsg, st)
  else
    if (normalizePhone phone).length < 8 || 15 < (normalizePhone phone).length then
      (.err 400 "Phone number must contain between 8 and 15 digits.", st)
    else
      match lookupKey st.otps (normalizePhone phone) with
      | none => (.err 400 "OTP is invalid or has expired.", st)
      | some otpData =>
          if OTP_MAX_ATTEMPTS ≤ otpData.attempts then
            (.err 429 "Too many invalid attempts. Request a new OTP.",
              eraseOtpEntry st (normalizePhone phone))
          else if otpData.expiresAt < now then
            (.err 400 "OTP expired. Request a new code.",
              eraseOtpEntry st (normalizePhone phone))
          else if !(argonVerify otpData.otpHash otp) then
            (.err 401 "Invalid OTP code.",
              setOtpEntry st (normalizePhone phone) (bumpOtpAttempts otpData))
          else if optStrFalsy otpData.email then
            (.err 500 "Failed to resolve account for OTP.",
              eraseOtpEntry st (normalizePhone phone))
          else
            match lookupKey st.users (otpData.email.getD "") with
            | none =>
                (.err 404 "Account record not found.",
                  eraseOtpEntry st (normalizePhone phone))
            | some userData =>
                let userData := { userData with
                  passwordHash := some (hashPassword newPassword), updatedAt := now }
                let st1 := { st with users := setKey st.users (otpData.email.getD "") userData }
                (.ok ⟨"Password reset successful.", otpData.email.getD ""⟩,
                  { st1 with otps := eraseKey st1.otps (normalizePhone phone) })


/-! ### Concrete fixture states used by witnesses and counterexamples -/

/-- A live challenge record for the fixtures (expiring at 1000). -/
def exC1nonceRec : NonceRecord :=
  { nonce := "n1", message := "Sign in to Fractal Recipe\nNonce: n1",
    expiresAt := 1000 }

/-- A server state holding one live sign-in challenge for `0xaa`. -/
def exStC1 : ServerState :=
  { pendingNonces := [("0xaa", exC1nonceRec)],
    walletDirectory := [], userDirectory := [], activeTokens := [],
    users := [], otps := [], firestoreConfigured := true }

/-- A successful verification run on `exStC1` (the signature oracle accepts). -/
def exC1run : ApiResp VerifyOk × ServerState :=
  authVerify (fun _ _ _ => true) none exStC1 (some "0xAA") (some "sig") 500 "tok1"

/-- The success payload `exC1run` produces. -/
def exC1payload : VerifyOk :=
  { token := "tok1", address := "0xaa",
    linkedGoogleId := none, firebaseCustomToken := none }


/-- The session payload of the fixture wallet session. -/
def exPayloadC3 : SessionPayload :=
  { authType := none, address := some "0xaa", linkedGoogleId := none,
    email := none, phone := none }

/-- Registry entry of the fixture session token. -/
def exTokenRecC3 : TokenRecord := { payload := exPayloadC3, expiresAt := 1000000 }

/-- A server state holding one active session for token `tok1`. -/
def exStC3 : ServerState :=
  { pendingNonces := [], walletDirectory := [], userDirectory := [],
    activeTokens := [("tok1", exTokenRecC3)],
    users := [], otps := [], firestoreConfigured := true }

/-- A `jwt.verify` oracle accepting exactly `tok1`. -/
def exJwtC3 : String → Option SessionPayload :=
  fun t => if t == "tok1" then some exPayloadC3 else none

/-- The state after logging the fixture session out. -/
def exStC3after : ServerState :=
  (authLogout exJwtC3 exStC3 (some "Bearer tok1") 100).2


/-- A wallet record already linked to Google identity `g1`. -/
def exWalletC4 : WalletRecord :=
  { address := "0xaa", createdAt := 0, lastLoginAt := none, googleId := some "g1" }

/-- A server state where wallet `0xaa` is linked to `g1` and token `tok1`
authenticates as that wallet. -/
def exStC4 : ServerState :=
  { pendingNonces := [], walletDirectory := [("0xaa", exWalletC4)],
    userDirectory := [], activeTokens := [("tok1", exTokenRecC3)],
    users := [], otps := [], firestoreConfigured := true }


/-- An OTP challenge that has exhausted its five attempts and is also past
its expiry. -/
def exOtpExhausted : OtpData :=
  { phone := "12345678", email := some "a@x.com", otpHash := "OH",
    attempts := 5, expiresAt := 0, createdAt := 0 }

/-- An OTP challenge with no attempts used, expiring at 2000. -/
def exOtpFresh : OtpData :=
  { phone := "12345678", email := some "a@x.com", otpHash := "OH",
    attempts := 0, expiresAt := 2000, createdAt := 0 }

/-- State with the exhausted OTP challenge outstanding. -/
def exStOtpExhausted : ServerState :=
  { pendingNonces := [], walletDirectory := [], userDirectory := [],
    activeTokens := [], users := [],
    otps := [("12345678", exOtpExhausted)], firestoreConfigured := true }

/-- State with the fresh OTP challenge outstanding. -/
def exStOtpFresh : ServerState :=
  { pendingNonces := [], walletDirectory := [], userDirectory := [],
    activeTokens := [], users := [],
    otps := [("12345678", exOtpFresh)], firestoreConfigured := true }



/-- A server state with one registered credential (email `b@x.com`, phone
`99999999`, stored hash `H2`). -/
def exCredC7 : Credential :=
  { email := "b@x.com", passwordHash := some "H2", phone := some "99999999",
    createdAt := 0, updatedAt := 0, lastLoginAt := none }

/-- State holding only `exCredC7`. -/
def exStC7 : ServerState :=
  { pendingNonces := [], walletDirectory := [], userDirectory := [],
    activeTokens := [], users := [("b@x.com", exCredC7)], otps := [],
    firestoreConfigured := true }


/-- An entirely empty server state. -/
def exStEmpty : ServerState :=
  { pendingNonces := [], walletDirectory := [], userDirectory := [],
    activeTokens := [], users := [], otps := [], firestoreConfigured := true }

/-- A stored credential document that lacks a `passwordHash` field. -/
def exCredNoHash : Credential :=
  { email := "c@x.com", passwordHash := none, phone := some "88888888",
    createdAt := 0, updatedAt := 0, lastLoginAt := none }

/-- State holding only the hashless credential `c@x.com`. -/
def exStC10 : ServerState :=
  { pendingNonces := [], walletDirectory := [], userDirectory := [],
    activeTokens := [], users := [("c@x.com", exCredNoHash)], otps := [],
    firestoreConfigured := true }

/-! ## Theorems -/

/-! ### Association-list lemmas -/

theorem lookupKey_eraseKey_self {β : Type} (m : List (String × β)) (k : String) :
    lookupKey (eraseKey m k) k = none := by
  induction m with
  | nil => simp [eraseKey, lookupKey]
  | cons hd tl ih =>
    obtain ⟨k', v⟩ := hd
    by_cases h : k' = k
    · simp [eraseKey, h, ih]
    · simp [eraseKey, lookupKey, h, ih]

theorem lookupKey_eraseKey_ne {β : Type} (m : List (String × β)) (k k' : String)
    (h : k' ≠ k) : lookupKey (eraseKey m k) k' = lookupKey m k' := by
  induction m with
  | nil => simp [eraseKey]
  | cons hd tl ih =>
    obtain ⟨k₀, v⟩ := hd
    by_cases h0 : k₀ = k
    · subst h0
      simp [eraseKey, lookupKey, Ne.symm h, ih]
    · by_cases h1 : k₀ = k'
      · simp [eraseKey, lookupKey, h0, h1, h]
      · simp [eraseKey, lookupKey, h0, h1, ih]

theorem lookupKey_setKey_self {β : Type} (m : List (String × β)) (k : String) (v : β) :
    lookupKey (setKey m k v) k = some v := by
  induction m with
  | nil => simp [setKey, lookupKey]
  | cons hd tl ih =>
    obtain ⟨k', v'⟩ := hd
    by_cases h : k' = k
    · simp [setKey, h, lookupKey]
    · simp [setKey, lookupKey, h, ih]

theorem lookupKey_setKey_ne {β : Type} (m : List (String × β)) (k k' : String) (v : β)
    (h : k' ≠ k) : lookupKey (setKey m k v) k' = lookupKey m k' := by
  induction m with
  | nil => simp [setKey, lookupKey, Ne.symm h]
  | cons hd tl ih =>
    obtain ⟨k₀, v₀⟩ := hd
    by_cases h0 : k₀ = k
    · subst h0
      simp [setKey, lookupKey, Ne.symm h]
    · by_cases h1 : k₀ = k'
      · simp [setKey, lookupKey, h0, h1, h]
      · simp [setKey, lookupKey, h0, h1, ih]

theorem eraseKey_of_lookup_none {β : Type} (m : List (String × β)) (k : String)
    (h : lookupKey m k = none) : eraseKey m k = m := by
  induction m with
  | nil => simp [eraseKey]
  | cons hd tl ih =>
    obtain ⟨k', v⟩ := hd
    by_cases h0 : k' = k
    · simp [lookupKey, h0] at h
    · simp [lookupKey, h0] at h
      simp [eraseKey, h0, ih h]

/-! ### Handler-level helper lemmas -/

theorem buildWalletRecord_pendingNonces (st : ServerState) (a : String) (now : Nat) :
    (buildWalletRecord st a now).2.pendingNonces = st.pendingNonces := by
  unfold buildWalletRecord
  split <;> rfl

/-! ### C1: challenges are single-use across successful verifications -/

/-- C1: when `/auth/verify` succeeds for an address, the pending challenge
entry for that (normalized) address has been removed, so a second
verification attempt for the same address — with any signature, any
verifier outcome and any later time — fails with the NotFound error
`Nonce not found. Request a new one.` and leaves the state unchanged: no
issued challenge is usable for more than one successful verification. -/
theorem c1_nonce_single_use
    (verifSig : String → String → String → Bool) (fbToken : Option String)
    (st : ServerState) (address signature : Option String) (now : Nat)
    (freshToken : String) (p : VerifyOk) (st' : ServerState)
    (h : authVerify verifSig fbToken st address signature now freshToken
      = (.ok p, st')) :
    ∃ normalized, normalizeAddress address = .ok normalized ∧
      lookupKey st'.pendingNonces normalized = none ∧
      ∀ (verifSig2 : String → String → String → Bool) (fb2 : Option String)
        (sig2 : String) (now2 : Nat) (tok2 : String), sig2 ≠ "" →
        authVerify verifSig2 fb2 st' address (some sig2) now2 tok2 =
          (.err 400 "Nonce not found. Request a new one.", st') := by
  unfold authVerify at h
  split at h
  · simp at h
  · rename_i hfalsy
    split at h
    · simp at h
    · rename_i normalized hnorm
      split at h
      · simp at h
      · rename_i rec hrec
        split at h
        · simp at h
        · rename_i hexp
          split at h
          · simp at h
          · rename_i hsig
            simp only [Prod.mk.injEq] at h
            obtain ⟨hp, hst⟩ := h
            have ha : optStrFalsy address = false := by
              cases hA : optStrFalsy address with
              | false => rfl
              | true => exact absurd (by simp [hA]) hfalsy
            have hpend : st'.pendingNonces = eraseKey st.pendingNonces normalized := by
              rw [← hst]
              simp [issueJwt, buildWalletRecord_pendingNonces]
            refine ⟨normalized, hnorm, ?_, ?_⟩
            · rw [hpend]
              exact lookupKey_eraseKey_self _ _
            · intro v2 fb2 sig2 now2 tok2 hs2
              have hb : optStrFalsy (some sig2) = false := by
                simp [optStrFalsy, hs2]
              unfold authVerify
              simp [ha, hb, hnorm, hpend, lookupKey_eraseKey_self]

/-- Witness for C1: the concrete run `exC1run` consumes the challenge for
`0xaa`, and any second attempt fails `Nonce not found`. -/
theorem c1_nonce_single_use_witness :
    ∃ normalized, normalizeAddress (some "0xAA") = .ok normalized ∧
      lookupKey (exC1run.2).pendingNonces normalized = none ∧
      ∀ (verifSig2 : String → String → String → Bool) (fb2 : Option String)
        (sig2 : String) (now2 : Nat) (tok2 : String), sig2 ≠ "" →
        authVerify verifSig2 fb2 exC1run.2 (some "0xAA") (some sig2) now2 tok2 =
          (.err 400 "Nonce not found. Request a new one.", exC1run.2) :=
  c1_nonce_single_use (fun _ _ _ => true) none exStC1 (some "0xAA") (some "sig")
    500 "tok1" exC1payload exC1run.2 (by decide)

/-! ### C2: whether a live challenge survives a failed signature check -/

/-- Counterexample to C2: on `exStC1` (live challenge for `0xaa`) a
verification attempt whose signature check fails leaves the state — and in
particular the pending challenge for `0xaa` — unchanged, contradicting the
claim that the challenge is removed unconditionally once looked up. -/
theorem c2_counterexample :
    authVerify (fun _ _ _ => false) none exStC1 (some "0xAA") (some "sig") 500 "tok1"
      = (.err 401 "Signature verification failed", exStC1) ∧
    lookupKey exStC1.pendingNonces "0xaa" = some exC1nonceRec := by decide

/-- C2 (amended): a verification attempt against a live stored challenge
removes the challenge only when the signature verifies (or, separately, on
detection of expiry); an attempt that fails only because the signature is
invalid answers 401 and leaves the server state — including the pending
challenge — unchanged. -/
theorem c2_nonce_kept_on_bad_signature
    (verifSig : String → String → String → Bool) (fbToken : Option String)
    (st : ServerState) (a s : String) (now : Nat) (freshToken : String)
    (hn : a ≠ "") (hs : s ≠ "")
    (na : String) (hnorm : normalizeAddress (some a) = .ok na)
    (rec : NonceRecord) (hrec : lookupKey st.pendingNonces na = some rec)
    (hlive : ¬ rec.expiresAt < now)
    (hbad : verifSig na rec.message s = false) :
    authVerify verifSig fbToken st (some a) (some s) now freshToken
      = (.err 401 "Signature verification failed", st) ∧
    lookupKey ((authVerify verifSig fbToken st (some a) (some s) now
      freshToken).2).pendingNonces na = some rec := by
  have hmain : authVerify verifSig fbToken st (some a) (some s) now freshToken
      = (.err 401 "Signature verification failed", st) := by
    unfold authVerify
    simp [optStrFalsy, hn, hs, hnorm, hrec, hlive, hbad]
  exact ⟨hmain, by rw [hmain]; exact hrec⟩

/-- Witness for the amended C2 at the concrete state `exStC1`. -/
theorem c2_nonce_kept_on_bad_signature_witness :
    (authVerify (fun _ _ _ => false) none exStC1 (some "0xAA") (some "sig") 500 "tok9"
      = (.err 401 "Signature verification failed", exStC1)) ∧
    lookupKey ((authVerify (fun _ _ _ => false) none exStC1 (some "0xAA") (some "sig")
      500 "tok9").2).pendingNonces "0xaa" = some exC1nonceRec :=
  c2_nonce_kept_on_bad_signature (fun _ _ _ => false) none exStC1 "0xAA" "sig" 500
    "tok9" (by decide) (by decide) "0xaa" rfl exC1nonceRec (by decide)
    (by decide) rfl

/-! ### C3: session validity requires JWT validity and registry presence -/

/-- Characterization of a passing `authenticateRequest`: the header carries a
bearer token that `jwt.verify` decodes and that has a live registry entry,
and the state is untouched. -/
theorem authenticateRequest_passed
    (jwtVerify : String → Option SessionPayload) (st : ServerState)
    (authHeader : Option String) (now : Nat) (auth sess : SessionPayload)
    (st' : ServerState)
    (hpass : authenticateRequest jwtVerify st authHeader now
      = (.passed auth sess, st')) :
    ∃ h, authHeader = some h ∧ startsWithBearer h = true ∧
      jwtVerify (strDrop h 7) = some auth ∧
      ∃ active, lookupKey st.activeTokens (strDrop h 7) = some active ∧
        ¬ active.expiresAt < now ∧ sess = active.payload ∧ st' = st := by
  unfold authenticateRequest at hpass
  split at hpass
  · simp at hpass
  · rename_i h
    split at hpass
    · simp at hpass
    · rename_i hB
      split at hpass
      · simp at hpass
      · rename_i decoded hJ
        split at hpass
        · simp at hpass
        · rename_i active hA
          split at hpass
          · simp at hpass
          · rename_i hE
            simp only [AuthOutcome.passed.injEq, Prod.mk.injEq] at hpass
            obtain ⟨⟨h1, h2⟩, h3⟩ := hpass
            refine ⟨h, rfl, by simpa using hB, ?_, active, hA, hE, h2.symm, h3.symm⟩
            rw [← h1]; exact hJ

/-- C3: an authenticated request passes only if the bearer token both
decodes under `jwt.verify` (unexpired claims) and sits in the
active-session registry with a non-expired entry; and after a logout
revokes the registry entry, the same token fails validation with
`Session has expired` even when `jwt.verify` still accepts it. -/
theorem c3_session_registry_required
    (jwtVerify : String → Option SessionPayload) (st : ServerState)
    (authHeader : Option String) (now : Nat) :
    (∀ auth sess st', authenticateRequest jwtVerify st authHeader now
        = (.passed auth sess, st') →
      ∃ h, authHeader = some h ∧ startsWithBearer h = true ∧
        jwtVerify (strDrop h 7) = some auth ∧
        ∃ active, lookupKey st.activeTokens (strDrop h 7) = some active ∧
          ¬ active.expiresAt < now ∧ sess = active.payload ∧ st' = st) ∧
    (∀ st2, authLogout jwtVerify st authHeader now = (.ok true, st2) →
      ∀ now2 decoded, jwtVerify (strDrop (authHeader.getD "") 7) = some decoded →
        authenticateRequest jwtVerify st2 authHeader now2
          = (.failed 401 "Session has expired", st2)) := by
  constructor
  · intro auth sess st' hpass
    exact authenticateRequest_passed jwtVerify st authHeader now auth sess st' hpass
  · intro st2 hout now2 decoded hJ2
    unfold authLogout at hout
    split at hout
    · rename_i hmid
      simp at hout
    · rename_i a se stm hmid
      split at hout
      · simp at hout
      · rename_i h
        split at hout
        · simp at hout
        · rename_i hB
          simp only [Prod.mk.injEq] at hout
          obtain ⟨-, hst2⟩ := hout
          obtain ⟨hh, hhEq, hB2, hJ, active, hA, hE, hsess, hstm⟩ :=
            authenticateRequest_passed jwtVerify st (some h) now a se stm hmid
          subst hstm
          have hgone : lookupKey st2.activeTokens (strDrop h 7) = none := by
            rw [← hst2]
            exact lookupKey_eraseKey_self _ _
          have herase : eraseKey st2.activeTokens (strDrop h 7) = st2.activeTokens :=
            eraseKey_of_lookup_none _ _ hgone
          simp only [Option.getD_some] at hJ2
          have hB3 : startsWithBearer h = true := by
            cases hhEq
            exact hB2
          simp [authenticateRequest, hB3, hJ2, hgone, herase]

/-- Witness for C3: after the concrete logout run on `exStC3`, token `tok1`
is rejected as `Session has expired` although `exJwtC3` still decodes it. -/
theorem c3_session_registry_required_witness :
    authenticateRequest exJwtC3 exStC3after (some "Bearer tok1") 200
      = (.failed 401 "Session has expired", exStC3after) :=
  (c3_session_registry_required exJwtC3 exStC3 (some "Bearer tok1") 100).2
    exStC3after (by decide) 200 exPayloadC3 (by decide)

/-! ### C4: linking a wallet to a second identity is a conflict, not an overwrite -/

/-- C4: when the authenticated wallet `w` already has a wallet-directory
record linked to Google identity `g1` and the link request resolves to a
different identity `g2`, the `/auth/link` route answers
409 `Wallet already linked to a different Google account` and returns the
state completely unchanged: `w` stays linked to `g1`, `g1`'s wallet set is
untouched, and no record for `g2` is created or mutated. -/
theorem c4_link_conflict
    (jwtVerify : String → Option SessionPayload)
    (verifyGoogle : String → Except String GoogleProfile)
    (fbToken : Option String) (st : ServerState) (authHeader : Option String)
    (googleId email displayName googleAccessToken : Option String)
    (now : Nat) (freshToken : String) (auth sess : SessionPayload)
    (hAuth : authenticateRequest jwtVerify st authHeader now
      = (.passed auth sess, st))
    (vp : Option GoogleProfile)
    (hvp : resolveGoogleProfile verifyGoogle googleAccessToken = .ok vp)
    (g2 : String) (hg2 : resolvedIdOf vp googleId = some g2) (hg2ne : g2 ≠ "")
    (w : String) (hw : normalizeAddress auth.address = .ok w)
    (wrec : WalletRecord) (hwrec : lookupKey st.walletDirectory w = some wrec)
    (g1 : String) (hg1 : wrec.googleId = some g1) (hg1ne : g1 ≠ "")
    (hne : g1 ≠ g2) :
    authLink jwtVerify verifyGoogle fbToken st authHeader googleId email
      displayName googleAccessToken now freshToken
      = (.err 409 "Wallet already linked to a different Google account", st) := by
  unfold authLink
  rw [hAuth]
  simp [linkBody, buildWalletRecord, hvp, hg2, hw, hwrec, hg1, optStrFalsy,
    hg2ne, hg1ne, hne]

/-- Witness for C4 on `exStC4`: a link attempt resolving to `g2` against the
wallet already linked to `g1` yields 409 and the unchanged state. -/
theorem c4_link_conflict_witness :
    authLink exJwtC3 (fun _ => .error "Invalid Google access token") none exStC4
      (some "Bearer tok1") (some "g2") none none none 100 "tokX"
      = (.err 409 "Wallet already linked to a different Google account", exStC4) :=
  c4_link_conflict exJwtC3 (fun _ => .error "Invalid Google access token") none
    exStC4 (some "Bearer tok1") (some "g2") none none none 100 "tokX"
    exPayloadC3 exPayloadC3 (by decide) none rfl "g2" rfl (by decide)
    "0xaa" rfl exWalletC4 (by decide) "g1" rfl (by decide) (by decide)

/-! ### C5: the OTP attempt counter is monotone and the limit is enforced -/

/-- C5: across any `/auth/password/reset` call, the attempts counter of an
outstanding challenge never decreases (first conjunct); a failed code
verification against a live challenge increments it by exactly one (second
conjunct); and once `attempts` has reached `OTP_MAX_ATTEMPTS = 5`, the next
reset attempt fails 429 `Too many invalid attempts` and deletes the
challenge regardless of its remaining time-to-live and of whether the
supplied code is correct (third conjunct: no hypothesis on `expiresAt` or
on the verification oracle). -/
theorem c5_otp_attempt_limit
    (argonVerify : String → String → Bool) (hashPassword : String → String)
    (st : ServerState) (phone otp newPassword : String) (now : Nat) :
    (∀ d', lookupKey ((resetPassword argonVerify hashPassword st phone otp
        newPassword now).2).otps (normalizePhone phone) = some d' →
      ∃ d, lookupKey st.otps (normalizePhone phone) = some d ∧
        d.attempts ≤ d'.attempts) ∧
    (∀ d, lookupKey st.otps (normalizePhone phone) = some d →
      st.firestoreConfigured = true →
      8 ≤ (normalizePhone phone).length → (normalizePhone phone).length ≤ 15 →
      d.attempts < OTP_MAX_ATTEMPTS → ¬ d.expiresAt < now →
      argonVerify d.otpHash otp = false →
      resetPassword argonVerify hashPassword st phone otp newPassword now
        = (.err 401 "Invalid OTP code.",
          setOtpEntry st (normalizePhone phone) (bumpOtpAttempts d))) ∧
    (∀ d, lookupKey st.otps (normalizePhone phone) = some d →
      st.firestoreConfigured = true →
      8 ≤ (normalizePhone phone).length → (normalizePhone phone).length ≤ 15 →
      OTP_MAX_ATTEMPTS ≤ d.attempts →
      resetPassword argonVerify hashPassword st phone otp newPassword now
        = (.err 429 "Too many invalid attempts. Request a new OTP.",
          eraseOtpEntry st (normalizePhone phone))) := by
  refine ⟨?_, ?_, ?_⟩
  · intro d' hd'
    unfold resetPassword at hd'
    split at hd'
    · exact ⟨d', hd', Nat.le_refl _⟩
    · split at hd'
      · exact ⟨d', hd', Nat.le_refl _⟩
      · split at hd'
        · exact ⟨d', hd', Nat.le_refl _⟩
        · rename_i d hd
          split at hd'
          · simp [eraseOtpEntry, lookupKey_eraseKey_self] at hd'
          · split at hd'
            · simp [eraseOtpEntry, lookupKey_eraseKey_self] at hd'
            · split at hd'
              · simp only [setOtpEntry, lookupKey_setKey_self,
                  Option.some.injEq] at hd'
                refine ⟨d, hd, ?_⟩
                rw [← hd']
                exact Nat.le_succ _
              · split at hd'
                · simp [eraseOtpEntry, lookupKey_eraseKey_self] at hd'
                · split at hd'
                  · simp [eraseOtpEntry, lookupKey_eraseKey_self] at hd'
                  · simp [lookupKey_eraseKey_self] at hd'
  · intro d hd hcfg h8 h15 hlt hexp hbad
    unfold resetPassword
    simp [hcfg, Nat.not_lt.mpr h8, Nat.not_lt.mpr h15, hd,
      Nat.not_le.mpr hlt, hexp, hbad]
  · intro d hd hcfg h8 h15 hge
    unfold resetPassword
    simp [hcfg, Nat.not_lt.mpr h8, Nat.not_lt.mpr h15, hd, hge]

/-- Witness for C5: on the exhausted challenge a reset attempt with a
correct-code oracle still fails 429 and deletes the challenge, and on the
fresh challenge a wrong code yields 401 with `attempts` bumped to one. -/
theorem c5_otp_attempt_limit_witness :
    (resetPassword (fun _ _ => true) (fun s => s) exStOtpExhausted "12345678"
        "123456" "newpassword1" 1000
      = (.err 429 "Too many invalid attempts. Request a new OTP.",
        eraseOtpEntry exStOtpExhausted (normalizePhone "12345678"))) ∧
    (resetPassword (fun _ _ => false) (fun s => s) exStOtpFresh "12345678"
        "123456" "newpassword1" 1000
      = (.err 401 "Invalid OTP code.",
        setOtpEntry exStOtpFresh (normalizePhone "12345678")
          (bumpOtpAttempts exOtpFresh))) :=
  ⟨(c5_otp_attempt_limit (fun _ _ => true) (fun s => s) exStOtpExhausted
      "12345678" "123456" "newpassword1" 1000).2.2 exOtpExhausted (by decide)
      (by decide) (by decide) (by decide) (by decide),
    (c5_otp_attempt_limit (fun _ _ => false) (fun s => s) exStOtpFresh
      "12345678" "123456" "newpassword1" 1000).2.1 exOtpFresh (by decide)
      (by decide) (by decide) (by decide) (by decide) (by decide) rfl⟩

/-! ### C6: order of the reset-endpoint failure checks -/

/-- Counterexample to C6: on a challenge that is both expired
(`expiresAt = 0 < now = 1000`) and at the attempt limit (`attempts = 5`),
the reset endpoint answers 429 `Too many invalid attempts` — the
attempts-limit check runs before the expiry check — not the step-1
`Expired` failure the claim predicts. -/
theorem c6_counterexample :
    (resetPassword (fun _ _ => true) (fun s => s) exStOtpExhausted "12345678"
        "123456" "newpassword2" 1000).1
      = .err 429 "Too many invalid attempts. Request a new OTP." ∧
    (resetPassword (fun _ _ => true) (fun s => s) exStOtpExhausted "12345678"
        "123456" "newpassword2" 1000).1
      ≠ .err 400 "OTP expired. Request a new code." := by decide

/-- C6 (amended): the reset endpoint's failure checks run in the order
missing-challenge, then attempts limit, then expiry: a missing document
fails 400 `OTP is invalid or has expired`; a present challenge at the
attempt limit fails 429 and is deleted even when its `expiresAt` has
passed; and the expiry failure (400, with deletion) is reached only when
the attempt limit has not been hit. -/
theorem c6_reset_check_order
    (argonVerify : String → String → Bool) (hashPassword : String → String)
    (st : ServerState) (phone otp newPassword : String) (now : Nat)
    (hcfg : st.firestoreConfigured = true)
    (h8 : 8 ≤ (normalizePhone phone).length)
    (h15 : (normalizePhone phone).length ≤ 15) :
    (lookupKey st.otps (normalizePhone phone) = none →
      resetPassword argonVerify hashPassword st phone otp newPassword now
        = (.err 400 "OTP is invalid or has expired.", st)) ∧
    (∀ d, lookupKey st.otps (normalizePhone phone) = some d →
      OTP_MAX_ATTEMPTS ≤ d.attempts →
      resetPassword argonVerify hashPassword st phone otp newPassword now
        = (.err 429 "Too many invalid attempts. Request a new OTP.",
          eraseOtpEntry st (normalizePhone phone))) ∧
    (∀ d, lookupKey st.otps (normalizePhone phone) = some d →
      d.attempts < OTP_MAX_ATTEMPTS → d.expiresAt < now →
      resetPassword argonVerify hashPassword st phone otp newPassword now
        = (.err 400 "OTP expired. Request a new code.",
          eraseOtpEntry st (normalizePhone phone))) := by
  refine ⟨?_, ?_, ?_⟩
  · intro hnone
    unfold resetPassword
    simp [hcfg, Nat.not_lt.mpr h8, Nat.not_lt.mpr h15, hnone]
  · intro d hd hge
    unfold resetPassword
    simp [hcfg, Nat.not_lt.mpr h8, Nat.not_lt.mpr h15, hd, hge]
  · intro d hd hlt hexp
    unfold resetPassword
    simp [hcfg, Nat.not_lt.mpr h8, Nat.not_lt.mpr h15, hd,
      Nat.not_le.mpr hlt, hexp]

/-- Witness for the amended C6: the exhausted-and-expired challenge gets
429, and a fresh challenge past its expiry gets the 400 expiry error. -/
theorem c6_reset_check_order_witness :
    (resetPassword (fun _ _ => false) (fun s => s) exStOtpExhausted "12345678"
        "123456" "newpassword3" 1000
      = (.err 429 "Too many invalid attempts. Request a new OTP.",
        eraseOtpEntry exStOtpExhausted (normalizePhone "12345678"))) ∧
    (resetPassword (fun _ _ => false) (fun s => s) exStOtpFresh "12345678"
        "123456" "newpassword3" 3000
      = (.err 400 "OTP expired. Request a new code.",
        eraseOtpEntry exStOtpFresh (normalizePhone "12345678"))) :=
  ⟨(c6_reset_check_order (fun _ _ => false) (fun s => s) exStOtpExhausted
      "12345678" "123456" "newpassword3" 1000 (by decide) (by decide)
      (by decide)).2.1 exOtpExhausted (by decide) (by decide),
    (c6_reset_check_order (fun _ _ => false) (fun s => s) exStOtpFresh
      "12345678" "123456" "newpassword3" 3000 (by decide) (by decide)
      (by decide)).2.2 exOtpFresh (by decide) (by decide) (by decide)⟩

/-! ### C7: login failures are indistinguishable for enumeration -/

/-- C7: a login attempt for an email with no stored credential and a login
attempt for a registered email whose password fails hash verification
produce literally the same response — status 401 with body
`Invalid email or password.` — and leave the state unchanged, so a caller
cannot distinguish a nonexistent account from a wrong password. -/
theorem c7_login_uniform_unauthorized
    (argonVerify : String → String → Bool) (st : ServerState)
    (e1 p1 e2 p2 : String) (now1 now2 : Nat) (tok1 tok2 : String)
    (hcfg : st.firestoreConfigured = true)
    (h1 : lookupKey st.users (normalizeEmail e1) = none)
    (cred : Credential)
    (h2 : lookupKey st.users (normalizeEmail e2) = some cred)
    (hsh : String) (hhash : cred.passwordHash = some hsh) (hne : hsh ≠ "")
    (hbad : argonVerify hsh p2 = false) :
    loginEmail argonVerify st e1 p1 now1 tok1
      = (.err 401 "Invalid email or password.", st) ∧
    loginEmail argonVerify st e2 p2 now2 tok2
      = (.err 401 "Invalid email or password.", st) ∧
    (loginEmail argonVerify st e1 p1 now1 tok1).1
      = (loginEmail argonVerify st e2 p2 now2 tok2).1 := by
  have hA : loginEmail argonVerify st e1 p1 now1 tok1
      = (.err 401 "Invalid email or password.", st) := by
    unfold loginEmail
    simp [hcfg, h1]
  have hB : loginEmail argonVerify st e2 p2 now2 tok2
      = (.err 401 "Invalid email or password.", st) := by
    unfold loginEmail
    simp [hcfg, h2, optStrFalsy, hhash, hne, hbad]
  exact ⟨hA, hB, by rw [hA, hB]⟩

/-- Witness for C7 on `exStC7`: unknown email `a@x.com` and wrong password
for `b@x.com` give the identical generic 401 response. -/
theorem c7_login_uniform_unauthorized_witness :
    (loginEmail (fun _ _ => false) exStC7 "a@x.com" "pw1" 10 "t1"
      = (.err 401 "Invalid email or password.", exStC7)) ∧
    (loginEmail (fun _ _ => false) exStC7 "b@x.com" "pw2" 20 "t2"
      = (.err 401 "Invalid email or password.", exStC7)) ∧
    ((loginEmail (fun _ _ => false) exStC7 "a@x.com" "pw1" 10 "t1").1
      = (loginEmail (fun _ _ => false) exStC7 "b@x.com" "pw2" 20 "t2").1) :=
  c7_login_uniform_unauthorized (fun _ _ => false) exStC7 "a@x.com" "pw1"
    "b@x.com" "pw2" 10 20 "t1" "t2" (by decide) (by decide) exCredC7
    (by decide) "H2" rfl (by decide) rfl

/-! ### C8: registration never overwrites an existing credential -/

/-- C8: with the store configured and the phone length in bounds,
registration against an already-registered normalized email fails 409
`Email is already registered.` with the state unchanged; against a free
email but an already-registered normalized phone it fails 409
`Phone number is already associated with another account.` with the state
unchanged; and in every case every credential document present before the
call is still present, unmodified, afterwards — no record is ever
silently overwritten. -/
theorem c8_register_conflict
    (hashPassword : String → String) (st : ServerState)
    (email password phone : String) (now : Nat)
    (hcfg : st.firestoreConfigured = true)
    (h8 : 8 ≤ (normalizePhone phone).length)
    (h15 : (normalizePhone phone).length ≤ 15) :
    (∀ c, lookupKey st.users (normalizeEmail email) = some c →
      registerEmail hashPassword st email password phone now
        = (.err 409 "Email is already registered.", st)) ∧
    (lookupKey st.users (normalizeEmail email) = none →
      st.users.any (fun kv => kv.2.phone == some (normalizePhone phone)) = true →
      registerEmail hashPassword st email password phone now
        = (.err 409 "Phone number is already associated with another account.", st)) ∧
    (∀ k c, lookupKey st.users k = some c →
      lookupKey ((registerEmail hashPassword st email password phone
        now).2).users k = some c) := by
  refine ⟨?_, ?_, ?_⟩
  · intro c hc
    unfold registerEmail
    simp [hcfg, Nat.not_lt.mpr h8, Nat.not_lt.mpr h15, hc]
  · intro hnone hphone
    unfold registerEmail
    simp [hcfg, Nat.not_lt.mpr h8, Nat.not_lt.mpr h15, hnone, hphone]
  · intro k c hk
    unfold registerEmail
    split
    · exact hk
    · split
      · exact hk
      · split
        · exact hk
        · rename_i hnone
          split
          · exact hk
          · by_cases hkk : normalizeEmail email = k
            · rw [hkk] at hnone
              rw [hnone] at hk
              exact absurd hk (by simp)
            · have : lookupKey (setKey st.users (normalizeEmail email)
                  ({ email := normalizeEmail email,
                     passwordHash := some (hashPassword password),
                     phone := some (normalizePhone phone), createdAt := now,
                     updatedAt := now, lastLoginAt := none })) k
                  = lookupKey st.users k :=
                lookupKey_setKey_ne _ _ _ _ (fun h => hkk h.symm)
              rw [← hk]
              exact this

/-- Witness for C8 on `exStC7`: re-registering `b@x.com` fails 409, a new
email with the taken phone `99999999` fails 409, and the stored document
survives a successful registration of a fresh account. -/
theorem c8_register_conflict_witness :
    (registerEmail (fun s => s) exStC7 "b@x.com" "password123" "99999999" 5
      = (.err 409 "Email is already registered.", exStC7)) ∧
    (registerEmail (fun s => s) exStC7 "d@x.com" "password123" "99999999" 5
      = (.err 409 "Phone number is already associated with another account.",
        exStC7)) ∧
    (lookupKey ((registerEmail (fun s => s) exStC7 "d@x.com" "password123"
      "77777777" 5).2).users "b@x.com" = some exCredC7) :=
  ⟨(c8_register_conflict (fun s => s) exStC7 "b@x.com" "password123"
      "99999999" 5 (by decide) (by decide) (by decide)).1 exCredC7 (by decide),
    (c8_register_conflict (fun s => s) exStC7 "d@x.com" "password123"
      "99999999" 5 (by decide) (by decide) (by decide)).2.1 (by decide)
      (by decide),
    (c8_register_conflict (fun s => s) exStC7 "d@x.com" "password123"
      "77777777" 5 (by decide) (by decide) (by decide)).2.2 "b@x.com"
      exCredC7 (by decide)⟩

/-! ### C9: address validation on challenge issuance -/

/-- Counterexample to C9: the four-character address `0xAB` — far from any
fixed chain address length — is accepted by `/auth/nonce`: it is lowercased
and a challenge is stored for `0xab`, contradicting the claim that an
address without the chain's fixed length is rejected with no challenge
stored.  (`normalizeAddress` checks only the `0x` marker, never the
length.) -/
theorem c9_counterexample :
    ("0xAB" : String).length = 4 ∧
    (authNonce exStEmpty (some "0xAB") "n1" 0).1
      = .ok ⟨"n1", "Sign in to Fractal Recipe\nNonce: n1"⟩ ∧
    lookupKey ((authNonce exStEmpty (some "0xAB") "n1" 0).2).pendingNonces "0xab"
      = some ⟨"n1", "Sign in to Fractal Recipe\nNonce: n1", 300000⟩ := by decide

/-- C9 (amended): challenge issuance lowercases the supplied address and
accepts it exactly when it starts with the chain's `0x` marker — no length
check is performed; a non-empty address without the marker is rejected 400
`Invalid wallet address` with no challenge stored (state unchanged), and an
accepted address has its challenge stored under the lowercased key. -/
theorem c9_nonce_address_normalization
    (st : ServerState) (a freshNonce : String) (now : Nat) (ha : a ≠ "") :
    (startsWith0x a = false →
      authNonce st (some a) freshNonce now
        = (.err 400 "Invalid wallet address", st)) ∧
    (startsWith0x a = true →
      authNonce st (some a) freshNonce now
        = (.ok ⟨freshNonce, "Sign in to Fractal Recipe\nNonce: " ++ freshNonce⟩,
          (createNonceRecord st (lowerString a) freshNonce now).2) ∧
      lookupKey ((authNonce st (some a) freshNonce now).2).pendingNonces
          (lowerString a)
        = some ⟨freshNonce, "Sign in to Fractal Recipe\nNonce: " ++ freshNonce,
            now + 5 * 60 * 1000⟩) := by
  constructor
  · intro hno
    unfold authNonce normalizeAddress
    simp [optStrFalsy, ha, hno]
  · intro hyes
    have hmain : authNonce st (some a) freshNonce now
        = (.ok ⟨freshNonce, "Sign in to Fractal Recipe\nNonce: " ++ freshNonce⟩,
          (createNonceRecord st (lowerString a) freshNonce now).2) := by
      unfold authNonce normalizeAddress
      simp [optStrFalsy, ha, hyes, createNonceRecord]
    refine ⟨hmain, ?_⟩
    rw [hmain]
    simp [createNonceRecord, lookupKey_setKey_self]

/-- Witness for the amended C9: `ABCD` (no marker) is rejected with the
state unchanged, while `0xAbC` is accepted and stored as `0xabc`. -/
theorem c9_nonce_address_normalization_witness :
    (authNonce exStEmpty (some "ABCD") "n2" 7
      = (.err 400 "Invalid wallet address", exStEmpty)) ∧
    (authNonce exStEmpty (some "0xAbC") "n2" 7
      = (.ok ⟨"n2", "Sign in to Fractal Recipe\nNonce: n2"⟩,
        (createNonceRecord exStEmpty (lowerString "0xAbC") "n2" 7).2) ∧
      lookupKey ((authNonce exStEmpty (some "0xAbC") "n2" 7).2).pendingNonces
          (lowerString "0xAbC")
        = some ⟨"n2", "Sign in to Fractal Recipe\nNonce: n2", 7 + 5 * 60 * 1000⟩) :=
  ⟨(c9_nonce_address_normalization exStEmpty "ABCD" "n2" 7 (by decide)).1
      (by decide),
    (c9_nonce_address_normalization exStEmpty "0xAbC" "n2" 7 (by decide)).2
      (by decide)⟩

/-! ### C10: the missing-credential login case is observably distinct -/

/-- C10: when the stored credential document for the normalized login email
has no (or an empty) `passwordHash`, login answers the distinct
500 `Account is missing credentials. Contact support.` rather than the
generic 401, and — last conjunct — among all failing login responses with
the store configured, these two are the only possible shapes, so the
missing-credential case is the unique failed login distinguishable from
the uniform error. -/
theorem c10_missing_hash_distinct_500
    (argonVerify : String → String → Bool) (st : ServerState)
    (email password : String) (now : Nat) (freshToken : String)
    (hcfg : st.firestoreConfigured = true)
    (cred : Credential)
    (hc : lookupKey st.users (normalizeEmail email) = some cred)
    (hmiss : cred.passwordHash = none) :
    loginEmail argonVerify st email password now freshToken
      = (.err 500 "Account is missing credentials. Contact support.", st) ∧
    (ApiResp.err 500 "Account is missing credentials. Contact support."
        : ApiResp LoginOk)
      ≠ .err 401 "Invalid email or password." ∧
    (∀ (st2 : ServerState) (e p : String) (n : Nat) (t : String)
        (s : Nat) (m : String) (stOut : ServerState),
      st2.firestoreConfigured = true →
      loginEmail argonVerify st2 e p n t = (.err s m, stOut) →
      (s = 401 ∧ m = "Invalid email or password.") ∨
      (s = 500 ∧ m = "Account is missing credentials. Contact support.")) := by
  refine ⟨?_, by decide, ?_⟩
  · unfold loginEmail
    simp [hcfg, hc, hmiss, optStrFalsy]
  · intro st2 e p n t s m stOut hcfg2 hrun
    unfold loginEmail at hrun
    split at hrun
    · rename_i hbad
      rw [hcfg2] at hbad
      simp at hbad
    · split at hrun
      · simp only [ApiResp.err.injEq, Prod.mk.injEq] at hrun
        exact Or.inl ⟨hrun.1.1.symm, hrun.1.2.symm⟩
      · split at hrun
        · simp only [ApiResp.err.injEq, Prod.mk.injEq] at hrun
          exact Or.inr ⟨hrun.1.1.symm, hrun.1.2.symm⟩
        · split at hrun
          · simp only [ApiResp.err.injEq, Prod.mk.injEq] at hrun
            exact Or.inl ⟨hrun.1.1.symm, hrun.1.2.symm⟩
          · simp at hrun

/-- Witness for C10 on `exStC10`: logging in as `c@x.com` (document present
but hashless) yields the distinct 500 response. -/
theorem c10_missing_hash_distinct_500_witness :
    loginEmail (fun _ _ => true) exStC10 "c@x.com" "pw" 3 "t3"
      = (.err 500 "Account is missing credentials. Contact support.", exStC10) :=
  (c10_missing_hash_distinct_500 (fun _ _ => true) exStC10 "c@x.com" "pw" 3 "t3"
    (by decide) exCredNoHash (by decide) rfl).1

